import Mathlib

/-!
Shallow embedding of the synmem connection bridge
(`src/extension/src/native-host/bridge.ts`) and of the change aggregator
(`RealTimeSyncService`), together with an event-loop semantics for the
timers, native-messaging ports and promises the bridge manipulates.

Modelling conventions:
* The TS class instance is a record; the fields `port`, `state`, `config`,
  `reconnectAttempts`, `reconnectTimeoutId`, `pingIntervalId`,
  `messageQueue` mirror the class fields one-to-one.  The remaining fields
  (`timers`, `openPorts`, `nextTimerId`, `nextPortId`, `nextPromiseId`,
  `connectCalls`, `postCalls`, `now`) model the JS runtime: the armed
  `setTimeout`/`setInterval` timers with their absolute due times, the set
  of native ports currently open, fresh-id counters, counters indexing the
  environment oracle, and the current clock.
* Handler registries (`messageHandlers`, `errorHandlers`,
  `stateChangeHandlers`) are externally supplied callbacks; invoking them
  is modelled as emitting an `Effect`, so the effect trace is exactly the
  sequence of observable callbacks, port writes and promise settlements.
* `chrome.runtime.connectNative` and `port.postMessage` can throw
  synchronously; whether the n-th such call throws is an environment
  choice, supplied by a `HostEnv` oracle indexed by call count.
-/

/-- Connection state, mirroring the `ConnectionState` string union. -/
inductive ConnectionState
  | disconnected
  | connecting
  | connected
  | reconnecting
deriving DecidableEq, Repr

/-- The `ConnectionConfig` record (field names as in `popup/index.tsx`). -/
structure ConnectionConfig where
  reconnectAttempts : Nat
  reconnectDelay : Nat
  maxReconnectDelay : Nat
  pingInterval : Nat
  debounceDelay : Nat
deriving DecidableEq, Repr

/-- `DEFAULT_CONNECTION_CONFIG` (`popup/index.tsx` lines 379-385). -/
def DEFAULT_CONNECTION_CONFIG : ConnectionConfig :=
  { reconnectAttempts := 5
    reconnectDelay := 1000
    maxReconnectDelay := 30000
    pingInterval := 30000
    debounceDelay := 500 }

/-- A `Partial<ConnectionConfig>` argument: every field optional. -/
structure PartialConnectionConfig where
  reconnectAttempts : Option Nat := none
  reconnectDelay : Option Nat := none
  maxReconnectDelay : Option Nat := none
  pingInterval : Option Nat := none
  debounceDelay : Option Nat := none
deriving DecidableEq, Repr

/-- The object spread `{ ...DEFAULT_CONNECTION_CONFIG, ...config }` in the
constructor: a field given in the partial config wins over the default. -/
def mergeConfig (base : ConnectionConfig) (p : PartialConnectionConfig) : ConnectionConfig :=
  { reconnectAttempts := p.reconnectAttempts.getD base.reconnectAttempts
    reconnectDelay := p.reconnectDelay.getD base.reconnectDelay
    maxReconnectDelay := p.maxReconnectDelay.getD base.maxReconnectDelay
    pingInterval := p.pingInterval.getD base.pingInterval
    debounceDelay := p.debounceDelay.getD base.debounceDelay }

/-- Messages crossing the bridge.  The bridge code only ever inspects the
`PONG` tag of an inbound message and constructs the `COMMAND`/`PING`
liveness probe; every other application message is opaque to it and is
abstracted by a numeric payload. -/
inductive Message
  | pingCommand
  | pong
  | user (n : Nat)
deriving DecidableEq, Repr

/-- The `ErrorCode` union of the extension types. -/
inductive ErrorCode
  | CONNECTION_FAILED
  | NATIVE_HOST_NOT_FOUND
  | INVALID_MESSAGE
  | TIMEOUT
  | PERMISSION_DENIED
  | UNKNOWN
deriving DecidableEq, Repr

/-- Kinds of timers the bridge arms.  The two timers created inside
`connect()` are local to that call's closure: they carry the promise id of
the pending `connect()` promise, and the confirmation timer additionally
carries the id of the connect-timeout timer that its callback clears. -/
inductive TimerKind
  | connectTimeout (pid : Nat)
  | connectConfirm (pid : Nat) (tid : Nat)
  | reconnectBackoff
  | pingRepeat
deriving DecidableEq, Repr

/-- An armed timer: its `setTimeout`/`setInterval` id, absolute due time,
and which callback it runs. -/
structure Timer where
  id : Nat
  due : Nat
  kind : TimerKind
deriving DecidableEq, Repr

/-- Observable effects: a successful `port.postMessage`, a state-change
notification, an error-handler notification, settlement of a `connect()`
promise, and dispatch of an inbound message to the message handlers. -/
inductive Effect
  | posted (port : Nat) (m : Message)
  | stateChange (s : ConnectionState)
  | errorEmitted (code : ErrorCode)
  | resolved (pid : Nat)
  | rejected (pid : Nat)
  | dispatched (m : Message)
deriving DecidableEq, Repr

/-- Environment oracle: whether the n-th `chrome.runtime.connectNative`
call succeeds (otherwise it throws), and whether the n-th
`port.postMessage` call succeeds (otherwise it throws synchronously). -/
structure HostEnv where
  connectOk : Nat → Bool
  sendOk : Nat → Bool

/-- An environment in which no transport call ever throws. -/
def reliableEnv : HostEnv := { connectOk := fun _ => true, sendOk := fun _ => true }

/-- A `NativeHostBridge` instance together with the runtime state it
manipulates (armed timers, open ports, clock, fresh-id counters). -/
structure NativeHostBridge where
  port : Option Nat
  state : ConnectionState
  config : ConnectionConfig
  reconnectAttempts : Nat
  reconnectTimeoutId : Option Nat
  pingIntervalId : Option Nat
  messageQueue : List Message
  timers : List Timer
  openPorts : List Nat
  nextTimerId : Nat
  nextPortId : Nat
  nextPromiseId : Nat
  connectCalls : Nat
  postCalls : Nat
  now : Nat
deriving DecidableEq, Repr

/-- A freshly constructed bridge (`new NativeHostBridge(config)`): all
fields at their initializers, clock at 0. -/
def NativeHostBridge.mkNew (config : PartialConnectionConfig) : NativeHostBridge :=
  { port := none
    state := .disconnected
    config := mergeConfig DEFAULT_CONNECTION_CONFIG config
    reconnectAttempts := 0
    reconnectTimeoutId := none
    pingIntervalId := none
    messageQueue := []
    timers := []
    openPorts := []
    nextTimerId := 0
    nextPortId := 0
    nextPromiseId := 0
    connectCalls := 0
    postCalls := 0
    now := 0 }

/-- `this.setState(newState)`: update and notify only on an actual change. -/
def NativeHostBridge.setState (b : NativeHostBridge) (ns : ConnectionState) :
    NativeHostBridge × List Effect :=
  if b.state = ns then (b, [])
  else ({ b with state := ns }, [Effect.stateChange ns])

/-- `clearTimeout(id)` / `clearInterval(id)`: disarm the timer if armed. -/
def clearTimerId (b : NativeHostBridge) (id : Nat) : NativeHostBridge :=
  { b with timers := b.timers.filter (fun t => t.id != id) }

/-- `this.stopPingInterval()`. -/
def NativeHostBridge.stopPingInterval (b : NativeHostBridge) : NativeHostBridge :=
  match b.pingIntervalId with
  | some id => { clearTimerId b id with pingIntervalId := none }
  | none => b

/-- `this.clearReconnectTimeout()`. -/
def NativeHostBridge.clearReconnectTimeout (b : NativeHostBridge) : NativeHostBridge :=
  match b.reconnectTimeoutId with
  | some id => { clearTimerId b id with reconnectTimeoutId := none }
  | none => b

/-- `this.startPingInterval()`: stop any previous interval, then arm a
fresh `setInterval` for `config.pingInterval`. -/
def NativeHostBridge.startPingInterval (b : NativeHostBridge) : NativeHostBridge :=
  let b1 := b.stopPingInterval
  let id := b1.nextTimerId
  { b1 with
    timers := b1.timers ++ [⟨id, b1.now + b1.config.pingInterval, TimerKind.pingRepeat⟩]
    nextTimerId := id + 1
    pingIntervalId := some id }

/-- `this.sendMessage(message)`: queue unless connected with a port; when
connected, attempt `postMessage` — on a synchronous throw the message is
pushed back onto the queue and `false` is returned. -/
def NativeHostBridge.sendMessage (env : HostEnv) (b : NativeHostBridge) (m : Message) :
    NativeHostBridge × Bool × List Effect :=
  if b.state = ConnectionState.connected ∧ b.port.isSome then
    let p := b.port.getD 0
    let ok := env.sendOk b.postCalls
    let b1 := { b with postCalls := b.postCalls + 1 }
    if ok then (b1, true, [Effect.posted p m])
    else ({ b1 with messageQueue := b1.messageQueue ++ [m] }, false, [])
  else
    ({ b with messageQueue := b.messageQueue ++ [m] }, false, [])

/-- One iteration bound for the `while` loop of `flushMessageQueue`; see
`NativeHostBridge.flushMessageQueue` below. -/
def flushLoop (env : HostEnv) : Nat → NativeHostBridge → NativeHostBridge × List Effect
  | 0, b => (b, [])
  | fuel + 1, b =>
    if b.messageQueue.length > 0 ∧ b.state = ConnectionState.connected then
      match b.messageQueue with
      | [] => (b, [])
      | m :: rest =>
        let b1 := { b with messageQueue := rest }
        let r := NativeHostBridge.sendMessage env b1 m
        let r2 := flushLoop env fuel r.1
        (r2.1, r.2.2 ++ r2.2)
    else (b, [])

/-- `this.flushMessageQueue()`: `while (queue.length > 0 && state ===
connected) { shift; sendMessage }`.  The JS loop runs until the queue
empties (nothing inside the loop can change `state` synchronously), so a
model run that ends with an empty queue coincides with the JS behaviour;
the fuel only bounds runs in which `postMessage` keeps throwing, where the
JS loop would not terminate at all. -/
def NativeHostBridge.flushMessageQueue (env : HostEnv) (b : NativeHostBridge) :
    NativeHostBridge × List Effect :=
  flushLoop env (2 * b.messageQueue.length + 2) b

/-- `this.connect()`.  The fresh promise id is `b.nextPromiseId`.  On the
happy path it opens a new port, registers the two listeners, arms the
5000ms connect-timeout timer, passes the PING probe to `sendMessage`, and
arms the 100ms confirmation timer.  If `connectNative` throws, the state
is set back to disconnected and the promise rejected. -/
def NativeHostBridge.connect (env : HostEnv) (b : NativeHostBridge) :
    NativeHostBridge × List Effect :=
  let pid := b.nextPromiseId
  let b := { b with nextPromiseId := pid + 1 }
  if b.state = ConnectionState.connected then (b, [Effect.resolved pid])
  else
    let r1 := b.setState ConnectionState.connecting
    let b1 := r1.1
    let ok := env.connectOk b1.connectCalls
    let b2 := { b1 with connectCalls := b1.connectCalls + 1 }
    if ok then
      let portId := b2.nextPortId
      let b3 := { b2 with
        nextPortId := portId + 1
        port := some portId
        openPorts := b2.openPorts ++ [portId] }
      let tid := b3.nextTimerId
      let b4 := { b3 with
        nextTimerId := tid + 1
        timers := b3.timers ++ [⟨tid, b3.now + 5000, TimerKind.connectTimeout pid⟩] }
      let r2 := NativeHostBridge.sendMessage env b4 Message.pingCommand
      let b5 := r2.1
      let cid := b5.nextTimerId
      let b6 := { b5 with
        nextTimerId := cid + 1
        timers := b5.timers ++ [⟨cid, b5.now + 100, TimerKind.connectConfirm pid tid⟩] }
      (b6, r1.2 ++ r2.2.2)
    else
      let r3 := b2.setState ConnectionState.disconnected
      (r3.1, r1.2 ++ r3.2 ++ [Effect.rejected pid])

/-- `this.disconnect()`: stop the heartbeat interval, clear the reconnect
timer, close the current port (if any), set state to disconnected. -/
def NativeHostBridge.disconnect (b : NativeHostBridge) : NativeHostBridge × List Effect :=
  let b1 := b.stopPingInterval
  let b2 := b1.clearReconnectTimeout
  let b3 :=
    match b2.port with
    | some p => { b2 with port := none, openPorts := b2.openPorts.filter (fun q => q != p) }
    | none => b2
  b3.setState ConnectionState.disconnected

/-- `this.attemptReconnect()`: at the attempt cap, emit the terminal error
and stop; otherwise move to reconnecting, bump the attempt count, and arm
the exponential-backoff timer. -/
def NativeHostBridge.attemptReconnect (b : NativeHostBridge) : NativeHostBridge × List Effect :=
  if b.reconnectAttempts ≥ b.config.reconnectAttempts then
    (b, [Effect.errorEmitted ErrorCode.CONNECTION_FAILED])
  else
    let r := b.setState ConnectionState.reconnecting
    let b1 := { r.1 with reconnectAttempts := r.1.reconnectAttempts + 1 }
    let delay :=
      min (b1.config.reconnectDelay * 2 ^ (b1.reconnectAttempts - 1))
        b1.config.maxReconnectDelay
    let id := b1.nextTimerId
    ({ b1 with
        nextTimerId := id + 1
        timers := b1.timers ++ [⟨id, b1.now + delay, TimerKind.reconnectBackoff⟩]
        reconnectTimeoutId := some id },
      r.2)

/-- `this.handleDisconnect()` (the `port.onDisconnect` listener): null the
port field, stop the heartbeat, emit `CONNECTION_FAILED` if the bridge was
connected, transition to disconnected, then attempt a reconnect. -/
def NativeHostBridge.handleDisconnect (b : NativeHostBridge) : NativeHostBridge × List Effect :=
  let b1 := NativeHostBridge.stopPingInterval { b with port := none }
  let errs :=
    if b.state = ConnectionState.connected then [Effect.errorEmitted ErrorCode.CONNECTION_FAILED]
    else []
  let r := b1.setState ConnectionState.disconnected
  let r2 := r.1.attemptReconnect
  (r2.1, errs ++ r.2 ++ r2.2)

/-- `this.handleIncomingMessage(raw)`: a `PONG` is recognized and dropped;
everything else is dispatched to the registered message handlers. -/
def NativeHostBridge.handleIncomingMessage (b : NativeHostBridge) (m : Message) :
    NativeHostBridge × List Effect :=
  if m = Message.pong then (b, []) else (b, [Effect.dispatched m])

/-- Run the callback of an armed timer.  A fired `setTimeout` is disarmed
before its callback runs; a `setInterval` is re-armed one period after its
previous due time.  Firing an id that is not armed is a no-op (the JS
runtime never does this; trace validity rules it out as well). -/
def NativeHostBridge.fireTimer (env : HostEnv) (b : NativeHostBridge) (id : Nat) :
    NativeHostBridge × List Effect :=
  match b.timers.find? (fun t => t.id == id) with
  | none => (b, [])
  | some t =>
    match t.kind with
    | TimerKind.connectTimeout pid =>
      let b1 := clearTimerId b id
      if b1.state = ConnectionState.connecting then
        let r := b1.setState ConnectionState.disconnected
        (r.1, r.2 ++ [Effect.rejected pid])
      else (b1, [])
    | TimerKind.connectConfirm pid tid =>
      let b1 := clearTimerId b id
      if b1.port.isSome ∧ b1.state = ConnectionState.connecting then
        let b2 := clearTimerId b1 tid
        let r := b2.setState ConnectionState.connected
        let b3 := { r.1 with reconnectAttempts := 0 }
        let b4 := b3.startPingInterval
        let r2 := NativeHostBridge.flushMessageQueue env b4
        (r2.1, r.2 ++ r2.2 ++ [Effect.resolved pid])
      else (b1, [])
    | TimerKind.reconnectBackoff =>
      let b1 := clearTimerId b id
      NativeHostBridge.connect env b1
    | TimerKind.pingRepeat =>
      let b1 := { b with
        timers := b.timers.map (fun t2 =>
          if t2.id == id then { t2 with due := t2.due + b.config.pingInterval } else t2) }
      let r := NativeHostBridge.sendMessage env b1 Message.pingCommand
      (r.1, r.2.2)

/-- External stimuli driving a bridge run: public API calls, the host
closing a port, an inbound message on a port, and a timer firing.  Each
event carries its absolute occurrence time. -/
inductive BEvent
  | connectCall (t : Nat)
  | disconnectCall (t : Nat)
  | sendCall (t : Nat) (m : Message)
  | hostClose (t : Nat) (p : Nat)
  | hostMessage (t : Nat) (p : Nat) (m : Message)
  | fire (t : Nat) (id : Nat)
deriving DecidableEq, Repr

/-- Occurrence time of an event. -/
def BEvent.time : BEvent → Nat
  | BEvent.connectCall t => t
  | BEvent.disconnectCall t => t
  | BEvent.sendCall t _ => t
  | BEvent.hostClose t _ => t
  | BEvent.hostMessage t _ _ => t
  | BEvent.fire t _ => t

/-- Process one event: advance the clock, then run the corresponding
method or listener.  A host-side close removes the port from the open set
before the `onDisconnect` listener runs. -/
def stepBridge (env : HostEnv) (b : NativeHostBridge) (e : BEvent) :
    NativeHostBridge × List Effect :=
  let b := { b with now := e.time }
  match e with
  | BEvent.connectCall _ => b.connect env
  | BEvent.disconnectCall _ => b.disconnect
  | BEvent.sendCall _ m =>
    let r := NativeHostBridge.sendMessage env b m
    (r.1, r.2.2)
  | BEvent.hostClose _ p =>
    let b1 := { b with openPorts := b.openPorts.filter (fun q => q != p) }
    b1.handleDisconnect
  | BEvent.hostMessage _ _ m => b.handleIncomingMessage m
  | BEvent.fire _ id => b.fireTimer env id

/-- Run a trace of events, concatenating the emitted effects. -/
def runBridge (env : HostEnv) (b : NativeHostBridge) : List BEvent → NativeHostBridge × List Effect
  | [] => (b, [])
  | e :: es =>
    let r := stepBridge env b e
    let r2 := runBridge env r.1 es
    (r2.1, r.2 ++ r2.2)

/-- A single event is admissible in a state when time is monotone, no
armed timer's due time lies strictly in the past (the event loop fires a
due timer before anything later happens), a `fire` names an armed timer
exactly at its due time, and host events name an open port. -/
def eventOk (b : NativeHostBridge) (e : BEvent) : Bool :=
  decide (b.now ≤ e.time) &&
  b.timers.all (fun t => decide (e.time ≤ t.due)) &&
  (match e with
   | BEvent.fire _ id => b.timers.any (fun t => t.id == id && decide (t.due = e.time))
   | BEvent.hostClose _ p => b.openPorts.contains p
   | BEvent.hostMessage _ p _ => b.openPorts.contains p
   | _ => true)

/-- Admissibility of a whole trace from a given state. -/
def validTrace (env : HostEnv) (b : NativeHostBridge) : List BEvent → Bool
  | [] => true
  | e :: es => eventOk b e && validTrace env (stepBridge env b e).1 es

/-- The module-level singleton cell (`let bridgeInstance = null`). -/
structure FactoryState where
  bridgeInstance : Option NativeHostBridge
deriving DecidableEq, Repr

/-- `getNativeHostBridge(config?)`: construct the bridge on first use,
return the cached instance ever after. -/
def getNativeHostBridge (config : Option PartialConnectionConfig) (f : FactoryState) :
    NativeHostBridge × FactoryState :=
  match f.bridgeInstance with
  | some b => (b, f)
  | none =>
    let b := NativeHostBridge.mkNew (config.getD {})
    (b, ⟨some b⟩)

/-- Mutation kinds: the `type` field of a DOM MutationRecord. -/
inductive MutKind
  | childList
  | attributes
  | characterData
deriving DecidableEq, Repr

/-- A node referenced by a raw mutation: whether it is an Element, and the
selector path `getElementPath` would compute for it (the path computation
walks the live DOM, so the path is environment-supplied here). -/
structure RawNode where
  isElement : Bool
  path : String
deriving DecidableEq, Repr

/-- A raw DOM MutationRecord, restricted to exactly what the service reads
from it: the type, the target (element flag, lower-cased tag name,
computed path), the added/removed node lists, and the attribute/text
values the conversion reads off the DOM at conversion time. -/
structure RawMutation where
  kind : MutKind
  targetIsElement : Bool
  targetTag : String
  targetPath : String
  addedNodes : List RawNode
  removedNodes : List RawNode
  attributeName : Option String
  oldValue : Option String
  attrCurrentValue : Option String
  textContent : Option String
deriving DecidableEq, Repr

/-- The serializable `MutationRecord` of the extension types (a field left
`undefined` in TS is `none` here). -/
structure SynmemMutationRecord where
  type : MutKind
  target : String
  addedNodes : Option (List String) := none
  removedNodes : Option (List String) := none
  attributeName : Option String := none
  oldValue : Option String := none
  newValue : Option String := none
deriving DecidableEq, Repr

/-- The significance filter in `handleMutations`: drop mutations targeting
script/style/noscript elements, and childList mutations that added and
removed nothing. -/
def isSignificantMutation (m : RawMutation) : Bool :=
  !(m.targetIsElement &&
      (m.targetTag == "script" || m.targetTag == "style" || m.targetTag == "noscript")) &&
  !(m.kind == MutKind.childList &&
      m.addedNodes.length == 0 && m.removedNodes.length == 0)

/-- `convertMutationRecord`: produce the serializable record; childList
node paths keep only Element nodes and are truncated to 10 entries each. -/
def convertMutationRecord (m : RawMutation) : SynmemMutationRecord :=
  let base : SynmemMutationRecord :=
    { type := m.kind
      target := if m.targetIsElement then m.targetPath else "text-node" }
  match m.kind with
  | MutKind.childList =>
    { base with
      addedNodes :=
        some (((m.addedNodes.filter (fun n => n.isElement)).map (fun n => n.path)).take 10)
      removedNodes :=
        some (((m.removedNodes.filter (fun n => n.isElement)).map (fun n => n.path)).take 10) }
  | MutKind.attributes =>
    { base with
      attributeName := m.attributeName
      oldValue := m.oldValue
      newValue :=
        if m.targetIsElement && m.attributeName.isSome then m.attrCurrentValue else none }
  | MutKind.characterData =>
    { base with oldValue := m.oldValue, newValue := m.textContent }

/-- Default debounce delay of the service (500ms). -/
def DEFAULT_DEBOUNCE_DELAY : Nat := 500

/-- Messages the service emits, as far as the aggregation claims observe
them: the `DOM_CHANGED` batch (its record list and timestamp) and the
`PAGE_SCRAPED` full-content companion. -/
inductive SyncEffect
  | domChanged (changes : List SynmemMutationRecord) (timestamp : Nat)
  | pageScraped
deriving DecidableEq, Repr

/-- A `RealTimeSyncService` instance plus the state of its debounce
closure: the pending record list, the due time of the armed debounce timer
(the closure's `timeoutId` slot), the configured delay and the clock. -/
structure RealTimeSyncService where
  pendingMutations : List SynmemMutationRecord
  debounceDue : Option Nat
  debounceDelay : Nat
  now : Nat
deriving DecidableEq, Repr

/-- A freshly started service with no pending records and no armed timer. -/
def RealTimeSyncService.mkNew (debounceDelay : Nat) : RealTimeSyncService :=
  { pendingMutations := []
    debounceDue := none
    debounceDelay := debounceDelay
    now := 0 }

/-- The cap in `handleMutations`: `if (length > 100) slice(-100)` — keep
only the most recent 100 records. -/
def capPending (l : List SynmemMutationRecord) : List SynmemMutationRecord :=
  if l.length > 100 then l.drop (l.length - 100) else l

/-- `handleMutations(mutations)`: filter, convert, append, cap, and re-arm
the debounce timer — except that an all-insignificant batch returns before
touching the pending list or the timer. -/
def RealTimeSyncService.handleMutations (s : RealTimeSyncService) (muts : List RawMutation) :
    RealTimeSyncService × List SyncEffect :=
  let significant := muts.filter isSignificantMutation
  if significant.length == 0 then (s, [])
  else
    let records := significant.map convertMutationRecord
    let pending := capPending (s.pendingMutations ++ records)
    ({ s with
        pendingMutations := pending
        debounceDue := some (s.now + s.debounceDelay) },
      [])

/-- `syncToNativeHost()`: nothing to do on an empty pending list;
otherwise send the `DOM_CHANGED` batch, clear the pending list, and send
the `PAGE_SCRAPED` companion. -/
def RealTimeSyncService.syncToNativeHost (s : RealTimeSyncService) :
    RealTimeSyncService × List SyncEffect :=
  if s.pendingMutations.length == 0 then (s, [])
  else
    ({ s with pendingMutations := [] },
      [SyncEffect.domChanged s.pendingMutations s.now, SyncEffect.pageScraped])

/-- Events driving a service run: a MutationObserver callback delivering a
list of raw mutations, and the debounce timer firing. -/
inductive SyncEvent
  | mutate (t : Nat) (muts : List RawMutation)
  | fire (t : Nat)
deriving DecidableEq, Repr

/-- Occurrence time of a service event. -/
def SyncEvent.time : SyncEvent → Nat
  | SyncEvent.mutate t _ => t
  | SyncEvent.fire t => t

/-- Process one service event.  A firing debounce timer empties its slot
(the closure nulls `timeoutId`) and runs `syncToNativeHost`. -/
def stepSync (s : RealTimeSyncService) (e : SyncEvent) :
    RealTimeSyncService × List SyncEffect :=
  let s := { s with now := e.time }
  match e with
  | SyncEvent.mutate _ muts => s.handleMutations muts
  | SyncEvent.fire _ =>
    RealTimeSyncService.syncToNativeHost { s with debounceDue := none }

/-- Run a trace of service events, concatenating the emitted effects. -/
def runSync (s : RealTimeSyncService) :
    List SyncEvent → RealTimeSyncService × List SyncEffect
  | [] => (s, [])
  | e :: es =>
    let r := stepSync s e
    let r2 := runSync r.1 es
    (r2.1, r.2 ++ r2.2)

/-- Admissibility of one service event: time is monotone, an armed
debounce timer is never silently overtaken, and a `fire` happens exactly
at the armed timer's due time. -/
def syncEventOk (s : RealTimeSyncService) (e : SyncEvent) : Bool :=
  decide (s.now ≤ e.time) &&
  (match s.debounceDue with
   | some d => decide (e.time ≤ d)
   | none => true) &&
  (match e with
   | SyncEvent.fire _ => s.debounceDue == some e.time
   | SyncEvent.mutate _ _ => true)

/-- Admissibility of a whole service trace from a given state. -/
def validSyncTrace (s : RealTimeSyncService) : List SyncEvent → Bool
  | [] => true
  | e :: es => syncEventOk s e && validSyncTrace (stepSync s e).1 es


/-- An environment whose first `postMessage` call throws and all later
ones succeed: a transient synchronous transport error during one write. -/
def flakyFirstSendEnv : HostEnv :=
  { connectOk := fun _ => true, sendOk := fun n => n != 0 }

/-- A sample significant attribute mutation, used to instantiate the
aggregation claims at concrete inputs. -/
def exampleAttrMutation (i : Nat) : RawMutation :=
  { kind := MutKind.attributes
    targetIsElement := true
    targetTag := "div"
    targetPath := toString i
    addedNodes := []
    removedNodes := []
    attributeName := some "class"
    oldValue := some "a"
    attrCurrentValue := some "b"
    textContent := none }

/-- Timing side condition for a burst: starting from time `prev`, each
event happens no earlier than the previous one and strictly less than one
debounce window after it. -/
def gapsOk (w : Nat) : Nat → List (Nat × RawMutation) → Bool
  | _, [] => true
  | prev, x :: rest => decide (prev ≤ x.1) && decide (x.1 < prev + w) && gapsOk w x.1 rest

/-- The bridge state reached by calling `connect()` on a fresh bridge in a
reliable environment, while the confirmation window is still open. -/
def exampleConnectingBridge : NativeHostBridge :=
  (NativeHostBridge.connect reliableEnv (NativeHostBridge.mkNew {})).1

theorem runBridge_append (env : HostEnv) (es1 es2 : List BEvent) :
    ∀ b : NativeHostBridge,
      runBridge env b (es1 ++ es2) =
        ((runBridge env (runBridge env b es1).1 es2).1,
          (runBridge env b es1).2 ++ (runBridge env (runBridge env b es1).1 es2).2) := by
  induction es1 with
  | nil => intro b; simp [runBridge]
  | cons e es ih => intro b; simp [runBridge, ih]

theorem validTrace_append (env : HostEnv) (es1 es2 : List BEvent) :
    ∀ b : NativeHostBridge,
      validTrace env b (es1 ++ es2) =
        (validTrace env b es1 && validTrace env (runBridge env b es1).1 es2) := by
  induction es1 with
  | nil => intro b; simp [validTrace, runBridge]
  | cons e es ih => intro b; simp [validTrace, runBridge, ih, Bool.and_assoc]

theorem flushLoop_reliable (env : HostEnv) (p : Nat)
    (hok : ∀ n, env.sendOk n = true) :
    ∀ (fuel : Nat) (b : NativeHostBridge),
      b.messageQueue.length ≤ fuel →
      b.state = ConnectionState.connected → b.port = some p →
      flushLoop env fuel b =
        ({ b with messageQueue := [], postCalls := b.postCalls + b.messageQueue.length },
          b.messageQueue.map (Effect.posted p)) := by
  intro fuel
  induction fuel with
  | zero =>
    intro b hlen hst hp
    have hq : b.messageQueue = [] := List.eq_nil_of_length_eq_zero (Nat.le_zero.mp hlen)
    obtain ⟨po, st, cf, ra, rt, pi, mq, tm, op, n1, n2, n3, c1, c2, nw⟩ := b
    simp only at hq
    subst hq
    simp [flushLoop]
  | succ fuel ih =>
    intro b hlen hst hp
    obtain ⟨po, st, cf, ra, rt, pi, mq, tm, op, n1, n2, n3, c1, c2, nw⟩ := b
    simp only at hlen hst hp
    subst hst hp
    cases mq with
    | nil => simp [flushLoop]
    | cons m rest =>
      have hrest : rest.length ≤ fuel := by
        simpa using Nat.lt_succ_iff.mp (Nat.lt_of_lt_of_le (Nat.lt_succ_self _) hlen)
      have := ih
        { port := some p, state := ConnectionState.connected, config := cf,
          reconnectAttempts := ra, reconnectTimeoutId := rt, pingIntervalId := pi,
          messageQueue := rest, timers := tm, openPorts := op, nextTimerId := n1,
          nextPortId := n2, nextPromiseId := n3, connectCalls := c1, postCalls := c2 + 1,
          now := nw } hrest rfl rfl
      simp [flushLoop, NativeHostBridge.sendMessage, hok] at this ⊢
      rw [this]
      simp [Nat.add_comm, Nat.add_assoc, Nat.add_left_comm]

theorem sends_not_connected (env : HostEnv) :
    ∀ (ms : List Nat) (b : NativeHostBridge),
      b.state ≠ ConnectionState.connected →
      b.timers.all (fun t => decide (b.now ≤ t.due)) = true →
      runBridge env b (ms.map (fun n => BEvent.sendCall b.now (Message.user n))) =
        ({ b with messageQueue := b.messageQueue ++ ms.map Message.user }, []) ∧
      validTrace env b (ms.map (fun n => BEvent.sendCall b.now (Message.user n))) = true := by
  intro ms
  induction ms with
  | nil =>
    intro b hst htm
    constructor
    · simp [runBridge]
    · simp [validTrace]
  | cons n rest ih =>
    intro b hst htm
    obtain ⟨po, st, cf, ra, rt, pi, mq, tm, op, n1, n2, n3, c1, c2, nw⟩ := b
    simp only at hst htm
    have htm2 : ∀ x ∈ tm, nw ≤ x.due := by simpa using htm
    have hcond : ¬(st = ConnectionState.connected ∧ po.isSome = true) := fun hc => hst hc.1
    have hstep :
        stepBridge env
          ⟨po, st, cf, ra, rt, pi, mq, tm, op, n1, n2, n3, c1, c2, nw⟩
          (BEvent.sendCall nw (Message.user n)) =
        (⟨po, st, cf, ra, rt, pi, mq ++ [Message.user n], tm, op, n1, n2, n3, c1, c2, nw⟩,
          []) := by
      simp [stepBridge, BEvent.time, NativeHostBridge.sendMessage, hcond]
    have ihr :=
      ih ⟨po, st, cf, ra, rt, pi, mq ++ [Message.user n], tm, op, n1, n2, n3, c1, c2, nw⟩
        hst htm
    simp only at ihr
    constructor
    · simp only [List.map_cons, runBridge, hstep]
      rw [ihr.1]
      simp
    · simp only [List.map_cons, validTrace, hstep]
      rw [ihr.2]
      simp [eventOk, BEvent.time]
      exact htm2

theorem sends_connected (env : HostEnv) (p : Nat)
    (hok : ∀ n, env.sendOk n = true) :
    ∀ (ms : List Nat) (b : NativeHostBridge),
      b.state = ConnectionState.connected → b.port = some p →
      b.timers.all (fun t => decide (b.now ≤ t.due)) = true →
      runBridge env b (ms.map (fun n => BEvent.sendCall b.now (Message.user n))) =
        ({ b with postCalls := b.postCalls + ms.length },
          ms.map (fun n => Effect.posted p (Message.user n))) ∧
      validTrace env b (ms.map (fun n => BEvent.sendCall b.now (Message.user n))) = true := by
  intro ms
  induction ms with
  | nil =>
    intro b hst hp htm
    constructor
    · simp [runBridge]
    · simp [validTrace]
  | cons n rest ih =>
    intro b hst hp htm
    obtain ⟨po, st, cf, ra, rt, pi, mq, tm, op, n1, n2, n3, c1, c2, nw⟩ := b
    simp only at hst hp htm
    subst hst hp
    have htm2 : ∀ x ∈ tm, nw ≤ x.due := by simpa using htm
    have hstep :
        stepBridge env
          ⟨some p, ConnectionState.connected, cf, ra, rt, pi, mq, tm, op, n1, n2, n3, c1, c2, nw⟩
          (BEvent.sendCall nw (Message.user n)) =
        (⟨some p, ConnectionState.connected, cf, ra, rt, pi, mq, tm, op, n1, n2, n3, c1, c2 + 1, nw⟩,
          [Effect.posted p (Message.user n)]) := by
      simp [stepBridge, BEvent.time, NativeHostBridge.sendMessage, hok]
    have ihr :=
      ih ⟨some p, ConnectionState.connected, cf, ra, rt, pi, mq, tm, op, n1, n2, n3, c1, c2 + 1, nw⟩
        rfl rfl htm
    simp only at ihr
    constructor
    · simp only [List.map_cons, runBridge, hstep]
      rw [ihr.1]
      simp [Nat.add_assoc, Nat.add_comm, Nat.add_left_comm]
    · simp only [List.map_cons, validTrace, hstep]
      rw [ihr.2]
      simp [eventOk, BEvent.time]
      exact htm2

theorem connect_not_connected (env : HostEnv) (b : NativeHostBridge)
    (hst : b.state ≠ ConnectionState.connected)
    (hok : env.connectOk b.connectCalls = true) :
    NativeHostBridge.connect env b =
      ({ b with
          nextPromiseId := b.nextPromiseId + 1
          state := ConnectionState.connecting
          connectCalls := b.connectCalls + 1
          port := some b.nextPortId
          nextPortId := b.nextPortId + 1
          openPorts := b.openPorts ++ [b.nextPortId]
          nextTimerId := b.nextTimerId + 2
          timers := b.timers ++
            [⟨b.nextTimerId, b.now + 5000, TimerKind.connectTimeout b.nextPromiseId⟩,
             ⟨b.nextTimerId + 1, b.now + 100,
               TimerKind.connectConfirm b.nextPromiseId b.nextTimerId⟩]
          messageQueue := b.messageQueue ++ [Message.pingCommand] },
        if b.state = ConnectionState.connecting then [] else
          [Effect.stateChange ConnectionState.connecting]) := by
  obtain ⟨po, st, cf, ra, rt, pi, mq, tm, op, n1, n2, n3, c1, c2, nw⟩ := b
  simp only at hst hok
  by_cases hc : st = ConnectionState.connecting
  · subst hc
    simp [NativeHostBridge.connect, NativeHostBridge.setState, NativeHostBridge.sendMessage,
      hok, hst]
  · simp [NativeHostBridge.connect, NativeHostBridge.setState, NativeHostBridge.sendMessage,
      hok, hst, hc]

theorem fireConfirm_reliable (env : HostEnv) (b : NativeHostBridge)
    (p pid tid id d : Nat)
    (hfind : b.timers.find? (fun t => t.id == id) =
      some ⟨id, d, TimerKind.connectConfirm pid tid⟩)
    (hp : b.port = some p)
    (hst : b.state = ConnectionState.connecting)
    (hpi : b.pingIntervalId = none)
    (hok : ∀ n, env.sendOk n = true) :
    NativeHostBridge.fireTimer env b id =
      ({ b with
          timers := ((b.timers.filter (fun t => t.id != id)).filter (fun t => t.id != tid)) ++
            [⟨b.nextTimerId, b.now + b.config.pingInterval, TimerKind.pingRepeat⟩]
          state := ConnectionState.connected
          reconnectAttempts := 0
          nextTimerId := b.nextTimerId + 1
          pingIntervalId := some b.nextTimerId
          messageQueue := []
          postCalls := b.postCalls + b.messageQueue.length },
        Effect.stateChange ConnectionState.connected ::
          (b.messageQueue.map (Effect.posted p) ++ [Effect.resolved pid])) := by
  obtain ⟨po, st, cf, ra, rt, pi, mq, tm, op, n1, n2, n3, c1, c2, nw⟩ := b
  simp only at hfind hp hst hpi
  subst hp hst hpi
  have hflush := flushLoop_reliable env p hok (2 * mq.length + 2)
    ⟨some p, ConnectionState.connected, cf, 0, rt, some n1, mq,
      ((tm.filter (fun t => t.id != id)).filter (fun t => t.id != tid)) ++
        [⟨n1, nw + cf.pingInterval, TimerKind.pingRepeat⟩],
      op, n1 + 1, n2, n3, c1, c2, nw⟩
    (by simp; omega) rfl rfl
  simp only at hflush
  simp only [List.filter_filter] at hflush
  simp [NativeHostBridge.fireTimer, hfind, clearTimerId, NativeHostBridge.setState,
    NativeHostBridge.startPingInterval, NativeHostBridge.stopPingInterval,
    NativeHostBridge.flushMessageQueue, hflush]

/-- Claim C1: the claim states that `disconnect()` cancels every in-flight
timer (connect-timeout, heartbeat, reconnect-backoff) so that no timer
callback armed before the call fires any effect afterwards.  The code
clears only the heartbeat and reconnect timers; the connect-timeout and
confirmation timers armed inside `connect()` are closure-local and are
never cleared by `disconnect()`.  Concretely: after connect() at t=0,
disconnect() at t=10 and connect() at t=20, the confirmation timer with id
1 — armed by the first connect, before the disconnect — is still armed
after the disconnect, and firing it at its due time t=100 (a valid
schedule) transitions the bridge to Connected, posts two messages on the
second port, and resolves the first, superseded connect promise: a stale
timer callback firing state changes, sends and a promise settlement. -/
theorem disconnect_leaves_stale_connect_timers :
    validTrace reliableEnv (NativeHostBridge.mkNew {})
      [BEvent.connectCall 0, BEvent.disconnectCall 10, BEvent.connectCall 20,
        BEvent.fire 100 1] = true ∧
    (runBridge reliableEnv (NativeHostBridge.mkNew {})
      [BEvent.connectCall 0]).1.timers.any (fun t => t.id == 1) = true ∧
    (runBridge reliableEnv (NativeHostBridge.mkNew {})
      [BEvent.connectCall 0, BEvent.disconnectCall 10]).1.timers.any
        (fun t => t.id == 1) = true ∧
    (stepBridge reliableEnv
      (runBridge reliableEnv (NativeHostBridge.mkNew {})
        [BEvent.connectCall 0, BEvent.disconnectCall 10, BEvent.connectCall 20]).1
      (BEvent.fire 100 1)).2 =
      [Effect.stateChange ConnectionState.connected,
        Effect.posted 1 Message.pingCommand, Effect.posted 1 Message.pingCommand,
        Effect.resolved 0] := by
  decide

/-- Claim C2: the claim states that at most one Transport Handle is open
at any time, and that `connect()` while Connecting must not open a second
handle.  The code only guards `state === connected`: calling `connect()`
at t=50, while the first call is still Connecting, runs `connectNative`
again and overwrites `this.port` without closing the first port, leaving
two native ports open simultaneously. -/
theorem connect_while_connecting_opens_second_port :
    validTrace reliableEnv (NativeHostBridge.mkNew {})
      [BEvent.connectCall 0, BEvent.connectCall 50] = true ∧
    (runBridge reliableEnv (NativeHostBridge.mkNew {})
      [BEvent.connectCall 0, BEvent.connectCall 50]).1.openPorts = [0, 1] ∧
    (runBridge reliableEnv (NativeHostBridge.mkNew {})
      [BEvent.connectCall 0, BEvent.connectCall 50]).1.openPorts.length = 2 := by
  decide

/-- Claim C5: when a reconnection attempt is considered with the attempt
count at (or beyond) `maxReconnectAttempts`, the bridge emits exactly one
CONNECTION_FAILED error, changes nothing else (in particular it stays in
whatever state it was in — Disconnected when called from the disconnect
handler), and arms no further reconnect timer, so no automatic
reconnection can occur until `connect()` is called explicitly. -/
theorem attemptReconnect_at_cap (b : NativeHostBridge)
    (h : b.config.reconnectAttempts ≤ b.reconnectAttempts) :
    NativeHostBridge.attemptReconnect b =
      (b, [Effect.errorEmitted ErrorCode.CONNECTION_FAILED]) := by
  simp [NativeHostBridge.attemptReconnect, h]

/-- Witness for C5: a fresh bridge with the default config (cap 5) and
five failed attempts recorded. -/
theorem attemptReconnect_at_cap_witness :
    ({ NativeHostBridge.mkNew {} with reconnectAttempts := 5 } :
        NativeHostBridge).config.reconnectAttempts ≤
      ({ NativeHostBridge.mkNew {} with reconnectAttempts := 5 } :
        NativeHostBridge).reconnectAttempts ∧
    NativeHostBridge.attemptReconnect
        { NativeHostBridge.mkNew {} with reconnectAttempts := 5 } =
      ({ NativeHostBridge.mkNew {} with reconnectAttempts := 5 },
        [Effect.errorEmitted ErrorCode.CONNECTION_FAILED]) :=
  ⟨by decide, attemptReconnect_at_cap _ (by decide)⟩

/-- Claim C6: `send` never blocks, never throws and never drops a
message: when not Connected (or with no port) the message is appended to
the Outbound Queue and `false` returned; when Connected and the write
throws synchronously, the message is appended to the queue and `false`
returned; when the write succeeds it is posted and `true` returned; and
whenever `false` is returned the message sits at the end of the queue.
The function is total — a transport failure is never surfaced to the
caller as an exception. -/
theorem sendMessage_never_drops (env : HostEnv) (b : NativeHostBridge) (m : Message) :
    (¬(b.state = ConnectionState.connected ∧ b.port.isSome = true) →
      NativeHostBridge.sendMessage env b m =
        ({ b with messageQueue := b.messageQueue ++ [m] }, false, [])) ∧
    (∀ p, b.state = ConnectionState.connected → b.port = some p →
      env.sendOk b.postCalls = false →
      NativeHostBridge.sendMessage env b m =
        ({ b with postCalls := b.postCalls + 1
                  messageQueue := b.messageQueue ++ [m] }, false, [])) ∧
    (∀ p, b.state = ConnectionState.connected → b.port = some p →
      env.sendOk b.postCalls = true →
      NativeHostBridge.sendMessage env b m =
        ({ b with postCalls := b.postCalls + 1 }, true, [Effect.posted p m])) ∧
    ((NativeHostBridge.sendMessage env b m).2.1 = false →
      (NativeHostBridge.sendMessage env b m).1.messageQueue = b.messageQueue ++ [m]) := by
  refine ⟨?_, ?_, ?_, ?_⟩
  · intro hcond
    simp [NativeHostBridge.sendMessage, hcond]
  · intro p hst hp hfail
    simp [NativeHostBridge.sendMessage, hst, hp, hfail]
  · intro p hst hp hok
    simp [NativeHostBridge.sendMessage, hst, hp, hok]
  · intro hfalse
    by_cases hcond : b.state = ConnectionState.connected ∧ b.port.isSome = true
    · by_cases hok : env.sendOk b.postCalls = true
      · exfalso
        simp [NativeHostBridge.sendMessage, hcond, hok] at hfalse
      · simp [NativeHostBridge.sendMessage, hcond, Bool.eq_false_iff.mpr hok]
    · simp [NativeHostBridge.sendMessage, hcond]

/-- Witness for C6: sending a user message on a fresh (disconnected)
bridge queues it and reports it unsent. -/
theorem sendMessage_never_drops_witness :
    ¬((NativeHostBridge.mkNew {}).state = ConnectionState.connected ∧
        (NativeHostBridge.mkNew {}).port.isSome = true) ∧
    NativeHostBridge.sendMessage reliableEnv (NativeHostBridge.mkNew {}) (Message.user 7) =
      ({ NativeHostBridge.mkNew {} with
          messageQueue := (NativeHostBridge.mkNew {}).messageQueue ++ [Message.user 7] },
        false, []) :=
  ⟨by decide,
    (sendMessage_never_drops reliableEnv (NativeHostBridge.mkNew {}) (Message.user 7)).1
      (by decide)⟩

/-- Claim C8: for reconnect attempt number n (the post-increment attempt
count), the armed backoff delay is min(baseReconnectDelayMs * 2^(n-1),
maxReconnectDelayMs); with the default base 1000 and cap 30000 the delay
sequence over successive attempts is 1000, 2000, 4000, 8000, 16000,
30000, 30000. -/
theorem reconnect_backoff_delay (b : NativeHostBridge) (n : Nat)
    (h1 : 1 ≤ n) (h2 : b.reconnectAttempts + 1 = n)
    (h3 : b.reconnectAttempts < b.config.reconnectAttempts) :
    (NativeHostBridge.attemptReconnect b).1.timers =
      b.timers ++
        [⟨b.nextTimerId,
          b.now + min (b.config.reconnectDelay * 2 ^ (n - 1)) b.config.maxReconnectDelay,
          TimerKind.reconnectBackoff⟩] ∧
    (List.range 7).map
        (fun k => min (DEFAULT_CONNECTION_CONFIG.reconnectDelay * 2 ^ k)
          DEFAULT_CONNECTION_CONFIG.maxReconnectDelay) =
      [1000, 2000, 4000, 8000, 16000, 30000, 30000] := by
  constructor
  · have hexp : n - 1 = b.reconnectAttempts := by omega
    have hlt : ¬ b.reconnectAttempts ≥ b.config.reconnectAttempts := Nat.not_le.mpr h3
    obtain ⟨po, st, cf, ra, rt, pi, mq, tm, op, n1, n2, n3, c1, c2, nw⟩ := b
    simp only at hexp hlt ⊢
    subst hexp
    by_cases hs : st = ConnectionState.reconnecting
    · subst hs
      simp [NativeHostBridge.attemptReconnect, NativeHostBridge.setState, hlt]
    · simp [NativeHostBridge.attemptReconnect, NativeHostBridge.setState, hlt, hs]
  · decide

/-- Witness for C8: the first reconnect attempt on a fresh default-config
bridge arms a 1000ms backoff timer. -/
theorem reconnect_backoff_delay_witness :
    1 ≤ 1 ∧ (NativeHostBridge.mkNew {}).reconnectAttempts + 1 = 1 ∧
    (NativeHostBridge.mkNew {}).reconnectAttempts <
      (NativeHostBridge.mkNew {}).config.reconnectAttempts ∧
    ((NativeHostBridge.attemptReconnect (NativeHostBridge.mkNew {})).1.timers =
      (NativeHostBridge.mkNew {}).timers ++
        [⟨(NativeHostBridge.mkNew {}).nextTimerId,
          (NativeHostBridge.mkNew {}).now +
            min ((NativeHostBridge.mkNew {}).config.reconnectDelay * 2 ^ (1 - 1))
              (NativeHostBridge.mkNew {}).config.maxReconnectDelay,
          TimerKind.reconnectBackoff⟩] ∧
    (List.range 7).map
        (fun k => min (DEFAULT_CONNECTION_CONFIG.reconnectDelay * 2 ^ k)
          DEFAULT_CONNECTION_CONFIG.maxReconnectDelay) =
      [1000, 2000, 4000, 8000, 16000, 30000, 30000]) :=
  ⟨by decide, by decide, by decide,
    reconnect_backoff_delay (NativeHostBridge.mkNew {}) 1 (by decide) (by decide) (by decide)⟩

/-- Claim C10: `getNativeHostBridge` is a singleton factory — after the
first call constructs the instance (merging only that call's config with
the defaults), every later call returns the identical cached instance and
ignores its config argument entirely. -/
theorem getNativeHostBridge_singleton (c1 c2 : Option PartialConnectionConfig)
    (f : FactoryState) (b : NativeHostBridge) :
    (getNativeHostBridge c2 (getNativeHostBridge c1 ⟨none⟩).2 =
      ((getNativeHostBridge c1 ⟨none⟩).1, (getNativeHostBridge c1 ⟨none⟩).2)) ∧
    ((getNativeHostBridge c1 ⟨none⟩).1 = NativeHostBridge.mkNew (c1.getD {})) ∧
    (f.bridgeInstance = some b → getNativeHostBridge c2 f = (b, f)) := by
  refine ⟨?_, ?_, ?_⟩
  · simp [getNativeHostBridge]
  · simp [getNativeHostBridge]
  · intro h
    obtain ⟨fi⟩ := f
    simp only at h
    subst h
    simp [getNativeHostBridge]

/-- Witness for C10: a second call with a different config returns the
instance built from the first call's (empty) config. -/
theorem getNativeHostBridge_singleton_witness :
    (⟨some (NativeHostBridge.mkNew {})⟩ : FactoryState).bridgeInstance =
      some (NativeHostBridge.mkNew {}) ∧
    getNativeHostBridge (some { reconnectDelay := some 42 })
        ⟨some (NativeHostBridge.mkNew {})⟩ =
      (NativeHostBridge.mkNew {}, ⟨some (NativeHostBridge.mkNew {})⟩) :=
  ⟨rfl,
    (getNativeHostBridge_singleton none (some { reconnectDelay := some 42 })
      ⟨some (NativeHostBridge.mkNew {})⟩ (NativeHostBridge.mkNew {})).2.2 rfl⟩

/-- Counterexample to claim C3 as stated: with two messages queued while
disconnected and a transient synchronous transport error on the very
first write of the flush, the requeued message is moved to the back of
the Outbound Queue and delivered after a message that was sent later —
`user 2` (and the probe) are posted before `user 1`, breaking original
send order even though the flush completes and the queue drains. -/
theorem flush_requeue_breaks_order :
    validTrace flakyFirstSendEnv (NativeHostBridge.mkNew {})
      [BEvent.sendCall 0 (Message.user 1), BEvent.sendCall 0 (Message.user 2),
        BEvent.connectCall 10, BEvent.fire 110 1] = true ∧
    (runBridge flakyFirstSendEnv (NativeHostBridge.mkNew {})
      [BEvent.sendCall 0 (Message.user 1), BEvent.sendCall 0 (Message.user 2),
        BEvent.connectCall 10, BEvent.fire 110 1]).2 =
      [Effect.stateChange ConnectionState.connecting,
        Effect.stateChange ConnectionState.connected,
        Effect.posted 0 (Message.user 2), Effect.posted 0 Message.pingCommand,
        Effect.posted 0 (Message.user 1), Effect.resolved 0] ∧
    (runBridge flakyFirstSendEnv (NativeHostBridge.mkNew {})
      [BEvent.sendCall 0 (Message.user 1), BEvent.sendCall 0 (Message.user 2),
        BEvent.connectCall 10, BEvent.fire 110 1]).1.messageQueue = [] := by
  decide

/-- Counterexample to claim C4 as stated: `connect()` on a fresh bridge
does not send the liveness probe through the Transport Handle — its
effects contain no post at all (only the state-change notification), and
the probe ends up appended to the Outbound Queue instead, because
`sendMessage` runs while the state is Connecting. -/
theorem connect_probe_is_queued_not_posted :
    (NativeHostBridge.connect reliableEnv (NativeHostBridge.mkNew {})).2 =
      [Effect.stateChange ConnectionState.connecting] ∧
    (NativeHostBridge.connect reliableEnv (NativeHostBridge.mkNew {})).1.messageQueue =
      [Message.pingCommand] := by
  decide

/-- Counterexample to claim C7 as stated: an inbound disconnect
notification received while the bridge is Connecting does trigger a
reconnection attempt — after connect() at t=0 and a host-side port close
at t=50 (a valid schedule), the bridge ends in the Reconnecting state
with a backoff timer armed, whereas the claim says no reconnection is
attempted from Connecting. -/
theorem handleDisconnect_reconnects_from_connecting :
    validTrace reliableEnv (NativeHostBridge.mkNew {})
      [BEvent.connectCall 0, BEvent.hostClose 50 0] = true ∧
    (runBridge reliableEnv (NativeHostBridge.mkNew {})
      [BEvent.connectCall 0, BEvent.hostClose 50 0]).1.state =
      ConnectionState.reconnecting ∧
    (runBridge reliableEnv (NativeHostBridge.mkNew {})
      [BEvent.connectCall 0, BEvent.hostClose 50 0]).1.reconnectTimeoutId = some 2 ∧
    (runBridge reliableEnv (NativeHostBridge.mkNew {})
      [BEvent.connectCall 0, BEvent.hostClose 50 0]).2 =
      [Effect.stateChange ConnectionState.connecting,
        Effect.stateChange ConnectionState.disconnected,
        Effect.stateChange ConnectionState.reconnecting] := by
  decide

/-- Claim C7 (amended): on an inbound disconnect notification in any
state other than Disconnected, the bridge nulls the port, stops the
heartbeat timer, emits a CONNECTION_FAILED error first if (and only if)
it was Connected, transitions to Disconnected, and then initiates a
reconnection attempt regardless of the prior state — including
Connecting, which the code does not special-case: below the attempt cap
the bridge moves on to Reconnecting with a backoff timer armed, and at
the cap it stays Disconnected. -/
theorem handleDisconnect_behavior (b : NativeHostBridge)
    (h : b.state ≠ ConnectionState.disconnected) :
    (NativeHostBridge.handleDisconnect b).1 =
      (NativeHostBridge.attemptReconnect
        { NativeHostBridge.stopPingInterval { b with port := none } with
            state := ConnectionState.disconnected }).1 ∧
    (NativeHostBridge.handleDisconnect b).2 =
      (if b.state = ConnectionState.connected then
          [Effect.errorEmitted ErrorCode.CONNECTION_FAILED]
        else []) ++
        Effect.stateChange ConnectionState.disconnected ::
          (NativeHostBridge.attemptReconnect
            { NativeHostBridge.stopPingInterval { b with port := none } with
                state := ConnectionState.disconnected }).2 ∧
    (b.reconnectAttempts < b.config.reconnectAttempts →
      (NativeHostBridge.handleDisconnect b).1.state = ConnectionState.reconnecting ∧
      (NativeHostBridge.handleDisconnect b).1.reconnectTimeoutId.isSome = true) ∧
    (b.config.reconnectAttempts ≤ b.reconnectAttempts →
      (NativeHostBridge.handleDisconnect b).1.state = ConnectionState.disconnected) := by
  obtain ⟨po, st, cf, ra, rt, pi, mq, tm, op, n1, n2, n3, c1, c2, nw⟩ := b
  simp only at h
  by_cases hcap : ra ≥ cf.reconnectAttempts
  · cases pi <;>
      simp [NativeHostBridge.handleDisconnect, NativeHostBridge.stopPingInterval,
        NativeHostBridge.setState, NativeHostBridge.attemptReconnect, clearTimerId,
        h, hcap, Nat.not_lt.mpr hcap]
  · have hlt : ra < cf.reconnectAttempts := Nat.not_le.mp hcap
    cases pi <;>
      simp [NativeHostBridge.handleDisconnect, NativeHostBridge.stopPingInterval,
        NativeHostBridge.setState, NativeHostBridge.attemptReconnect, clearTimerId,
        h, hcap, hlt]

/-- Witness for C7 (amended): a connected default-config bridge with no
failed attempts reconnects after a disconnect notification. -/
theorem handleDisconnect_behavior_witness :
    ({ NativeHostBridge.mkNew {} with
        state := ConnectionState.connected } : NativeHostBridge).state ≠
      ConnectionState.disconnected ∧
    (({ NativeHostBridge.mkNew {} with
        state := ConnectionState.connected } : NativeHostBridge).reconnectAttempts <
      ({ NativeHostBridge.mkNew {} with
        state := ConnectionState.connected } : NativeHostBridge).config.reconnectAttempts →
      (NativeHostBridge.handleDisconnect
        { NativeHostBridge.mkNew {} with
            state := ConnectionState.connected }).1.state = ConnectionState.reconnecting ∧
      (NativeHostBridge.handleDisconnect
        { NativeHostBridge.mkNew {} with
            state := ConnectionState.connected }).1.reconnectTimeoutId.isSome = true) :=
  ⟨by decide,
    (handleDisconnect_behavior
      { NativeHostBridge.mkNew {} with state := ConnectionState.connected }
      (by decide)).2.2.1⟩

/-- Claim C4 (amended): every connect() call from a non-Connected state
(with `connectNative` succeeding) opens a fresh Transport Handle,
registers the inbound-message and disconnect listeners, arms the 5000ms
connect-timeout timer and the 100ms confirmation timer, and passes the
liveness probe to send — which, the state being Connecting, appends the
probe to the Outbound Queue instead of writing it through the handle (no
post effect occurs).  When the confirmation timer fires with the handle
still present and the state still Connecting, the bridge cancels the
timeout timer, transitions to Connected, resets the reconnect attempt
count to 0, starts the heartbeat interval, flushes the Outbound Queue in
FIFO order (in an environment whose writes succeed), and resolves the
connect promise. -/
theorem connect_establishes_after_confirm_window :
    (∀ (env : HostEnv) (b : NativeHostBridge),
      b.state ≠ ConnectionState.connected → env.connectOk b.connectCalls = true →
      NativeHostBridge.connect env b =
        ({ b with
            nextPromiseId := b.nextPromiseId + 1
            state := ConnectionState.connecting
            connectCalls := b.connectCalls + 1
            port := some b.nextPortId
            nextPortId := b.nextPortId + 1
            openPorts := b.openPorts ++ [b.nextPortId]
            nextTimerId := b.nextTimerId + 2
            timers := b.timers ++
              [⟨b.nextTimerId, b.now + 5000, TimerKind.connectTimeout b.nextPromiseId⟩,
               ⟨b.nextTimerId + 1, b.now + 100,
                 TimerKind.connectConfirm b.nextPromiseId b.nextTimerId⟩]
            messageQueue := b.messageQueue ++ [Message.pingCommand] },
          if b.state = ConnectionState.connecting then [] else
            [Effect.stateChange ConnectionState.connecting])) ∧
    (∀ (env : HostEnv) (b : NativeHostBridge) (p pid tid id d : Nat),
      b.timers.find? (fun t => t.id == id) =
        some ⟨id, d, TimerKind.connectConfirm pid tid⟩ →
      b.port = some p → b.state = ConnectionState.connecting →
      b.pingIntervalId = none → (∀ n, env.sendOk n = true) →
      NativeHostBridge.fireTimer env b id =
        ({ b with
            timers := ((b.timers.filter (fun t => t.id != id)).filter
                (fun t => t.id != tid)) ++
              [⟨b.nextTimerId, b.now + b.config.pingInterval, TimerKind.pingRepeat⟩]
            state := ConnectionState.connected
            reconnectAttempts := 0
            nextTimerId := b.nextTimerId + 1
            pingIntervalId := some b.nextTimerId
            messageQueue := []
            postCalls := b.postCalls + b.messageQueue.length },
          Effect.stateChange ConnectionState.connected ::
            (b.messageQueue.map (Effect.posted p) ++ [Effect.resolved pid]))) :=
  ⟨fun env b h1 h2 => connect_not_connected env b h1 h2,
    fun env b p pid tid id d h1 h2 h3 h4 h5 =>
      fireConfirm_reliable env b p pid tid id d h1 h2 h3 h4 h5⟩

/-- Witness for C4 (amended): a fresh bridge, then the confirmation timer
of that very connect() call. -/
theorem connect_establishes_after_confirm_window_witness :
    ((NativeHostBridge.mkNew {}).state ≠ ConnectionState.connected ∧
      NativeHostBridge.connect reliableEnv (NativeHostBridge.mkNew {}) =
        ({ NativeHostBridge.mkNew {} with
            nextPromiseId := (NativeHostBridge.mkNew {}).nextPromiseId + 1
            state := ConnectionState.connecting
            connectCalls := (NativeHostBridge.mkNew {}).connectCalls + 1
            port := some (NativeHostBridge.mkNew {}).nextPortId
            nextPortId := (NativeHostBridge.mkNew {}).nextPortId + 1
            openPorts := (NativeHostBridge.mkNew {}).openPorts ++
              [(NativeHostBridge.mkNew {}).nextPortId]
            nextTimerId := (NativeHostBridge.mkNew {}).nextTimerId + 2
            timers := (NativeHostBridge.mkNew {}).timers ++
              [⟨(NativeHostBridge.mkNew {}).nextTimerId, (NativeHostBridge.mkNew {}).now + 5000,
                  TimerKind.connectTimeout (NativeHostBridge.mkNew {}).nextPromiseId⟩,
               ⟨(NativeHostBridge.mkNew {}).nextTimerId + 1,
                  (NativeHostBridge.mkNew {}).now + 100,
                  TimerKind.connectConfirm (NativeHostBridge.mkNew {}).nextPromiseId
                    (NativeHostBridge.mkNew {}).nextTimerId⟩]
            messageQueue := (NativeHostBridge.mkNew {}).messageQueue ++
              [Message.pingCommand] },
          if (NativeHostBridge.mkNew {}).state = ConnectionState.connecting then [] else
            [Effect.stateChange ConnectionState.connecting])) ∧
    (exampleConnectingBridge.state = ConnectionState.connecting ∧
      NativeHostBridge.fireTimer reliableEnv exampleConnectingBridge 1 =
        ({ exampleConnectingBridge with
            timers := ((exampleConnectingBridge.timers.filter (fun t => t.id != 1)).filter
                (fun t => t.id != 0)) ++
              [⟨exampleConnectingBridge.nextTimerId,
                  exampleConnectingBridge.now + exampleConnectingBridge.config.pingInterval,
                  TimerKind.pingRepeat⟩]
            state := ConnectionState.connected
            reconnectAttempts := 0
            nextTimerId := exampleConnectingBridge.nextTimerId + 1
            pingIntervalId := some exampleConnectingBridge.nextTimerId
            messageQueue := []
            postCalls := exampleConnectingBridge.postCalls +
              exampleConnectingBridge.messageQueue.length },
          Effect.stateChange ConnectionState.connected ::
            (exampleConnectingBridge.messageQueue.map (Effect.posted 0) ++
              [Effect.resolved 0]))) :=
  ⟨⟨by decide,
      connect_establishes_after_confirm_window.1 reliableEnv (NativeHostBridge.mkNew {})
        (by decide) (by decide)⟩,
    ⟨by decide,
      connect_establishes_after_confirm_window.2 reliableEnv exampleConnectingBridge
        0 0 0 1 100 (by decide) (by decide) (by decide) (by decide) (fun n => rfl)⟩⟩

theorem sends_not_connected_at (env : HostEnv) (ms : List Nat) (b : NativeHostBridge)
    (t : Nat) (ht : b.now = t)
    (hst : b.state ≠ ConnectionState.connected)
    (htm : b.timers.all (fun tr => decide (b.now ≤ tr.due)) = true) :
    runBridge env b (ms.map (fun n => BEvent.sendCall t (Message.user n))) =
      ({ b with messageQueue := b.messageQueue ++ ms.map Message.user }, []) ∧
    validTrace env b (ms.map (fun n => BEvent.sendCall t (Message.user n))) = true := by
  subst ht
  exact sends_not_connected env ms b hst htm

theorem sends_connected_at (env : HostEnv) (p : Nat)
    (hok : ∀ n, env.sendOk n = true) (ms : List Nat) (b : NativeHostBridge)
    (t : Nat) (ht : b.now = t)
    (hst : b.state = ConnectionState.connected) (hp : b.port = some p)
    (htm : b.timers.all (fun tr => decide (b.now ≤ tr.due)) = true) :
    runBridge env b (ms.map (fun n => BEvent.sendCall t (Message.user n))) =
      ({ b with postCalls := b.postCalls + ms.length },
        ms.map (fun n => Effect.posted p (Message.user n))) ∧
    validTrace env b (ms.map (fun n => BEvent.sendCall t (Message.user n))) = true := by
  subst ht
  exact sends_connected env p hok ms b hst hp htm

theorem connectStep10 (q : List Message) :
    stepBridge reliableEnv
      ⟨none, ConnectionState.disconnected, ⟨5, 1000, 30000, 30000, 500⟩, 0, none, none,
        q, [], [], 0, 0, 0, 0, 0, 0⟩
      (BEvent.connectCall 10) =
      (⟨some 0, ConnectionState.connecting, ⟨5, 1000, 30000, 30000, 500⟩, 0, none, none,
          q ++ [Message.pingCommand],
          [⟨0, 5010, TimerKind.connectTimeout 0⟩, ⟨1, 110, TimerKind.connectConfirm 0 0⟩],
          [0], 2, 1, 1, 1, 0, 10⟩,
        [Effect.stateChange ConnectionState.connecting]) := by
  simp [stepBridge, BEvent.time, NativeHostBridge.connect, NativeHostBridge.setState,
    NativeHostBridge.sendMessage, reliableEnv]

theorem fireStep110 (q : List Message) :
    stepBridge reliableEnv
      ⟨some 0, ConnectionState.connecting, ⟨5, 1000, 30000, 30000, 500⟩, 0, none, none,
        q, [⟨0, 5010, TimerKind.connectTimeout 0⟩, ⟨1, 110, TimerKind.connectConfirm 0 0⟩],
        [0], 2, 1, 1, 1, 0, 10⟩
      (BEvent.fire 110 1) =
      (⟨some 0, ConnectionState.connected, ⟨5, 1000, 30000, 30000, 500⟩, 0, none, some 2,
          [], [⟨2, 30110, TimerKind.pingRepeat⟩], [0], 3, 1, 1, 1, q.length, 110⟩,
        Effect.stateChange ConnectionState.connected ::
          (q.map (Effect.posted 0) ++ [Effect.resolved 0])) := by
  have hc := fireConfirm_reliable reliableEnv
    ⟨some 0, ConnectionState.connecting, ⟨5, 1000, 30000, 30000, 500⟩, 0, none, none,
      q, [⟨0, 5010, TimerKind.connectTimeout 0⟩, ⟨1, 110, TimerKind.connectConfirm 0 0⟩],
      [0], 2, 1, 1, 1, 0, 110⟩ 0 0 0 1 110 rfl rfl rfl rfl (fun n => rfl)
  simp only at hc
  simp [stepBridge, BEvent.time, hc]

/-- Claim C3 (amended): provided no synchronous transport error occurs
during delivery, every sequence of messages passed to send while the
bridge is Disconnected (or Connecting) is delivered to the Transport
Handle in its original send order once the bridge transitions to
Connected, and all of those messages are posted before any message
generated after that transition; a message whose write raises a
synchronous transport error is instead requeued at the back of the
Outbound Queue and may be delivered after later messages (see the
counterexample). -/
theorem queued_messages_flushed_in_order (ms ms2 : List Nat) :
    validTrace reliableEnv (NativeHostBridge.mkNew {})
      (ms.map (fun n => BEvent.sendCall 0 (Message.user n)) ++
        (BEvent.connectCall 10 :: BEvent.fire 110 1 ::
          ms2.map (fun n => BEvent.sendCall 110 (Message.user n)))) = true ∧
    (runBridge reliableEnv (NativeHostBridge.mkNew {})
      (ms.map (fun n => BEvent.sendCall 0 (Message.user n)) ++
        (BEvent.connectCall 10 :: BEvent.fire 110 1 ::
          ms2.map (fun n => BEvent.sendCall 110 (Message.user n))))).2 =
      Effect.stateChange ConnectionState.connecting ::
        Effect.stateChange ConnectionState.connected ::
        (ms.map (fun n => Effect.posted 0 (Message.user n)) ++
          (Effect.posted 0 Message.pingCommand ::
            Effect.resolved 0 ::
            ms2.map (fun n => Effect.posted 0 (Message.user n)))) := by
  have hmk : NativeHostBridge.mkNew {} =
      ⟨none, ConnectionState.disconnected, ⟨5, 1000, 30000, 30000, 500⟩, 0, none, none,
        [], [], [], 0, 0, 0, 0, 0, 0⟩ := rfl
  rw [hmk, validTrace_append, runBridge_append]
  have hA := sends_not_connected_at reliableEnv ms
    ⟨none, ConnectionState.disconnected, ⟨5, 1000, 30000, 30000, 500⟩, 0, none, none,
      [], [], [], 0, 0, 0, 0, 0, 0⟩ 0 rfl (by simp) rfl
  rw [hA.1, hA.2]
  simp only [List.nil_append, Bool.true_and]
  have hB := connectStep10 (List.map Message.user ms)
  have hC := fireStep110 (List.map Message.user ms ++ [Message.pingCommand])
  have hD := sends_connected_at reliableEnv 0 (fun n => rfl) ms2
    ⟨some 0, ConnectionState.connected, ⟨5, 1000, 30000, 30000, 500⟩, 0, none, some 2,
      [], [⟨2, 30110, TimerKind.pingRepeat⟩], [0], 3, 1, 1, 1,
      (List.map Message.user ms ++ [Message.pingCommand]).length, 110⟩ 110 rfl rfl rfl rfl
  constructor
  · simp only [validTrace, hB, hC]
    rw [hD.2]
    simp [eventOk, BEvent.time]
  · simp only [runBridge, hB, hC]
    rw [hD.1]
    simp [List.map_append, List.map_map, Function.comp]

theorem capPending_le (l : List SynmemMutationRecord) : (capPending l).length ≤ 100 := by
  unfold capPending
  by_cases h : l.length > 100
  · rw [if_pos h, List.length_drop]
    omega
  · rw [if_neg h]
    omega

theorem capPending_of_le (l : List SynmemMutationRecord) (h : l.length ≤ 100) :
    capPending l = l := by
  unfold capPending
  rw [if_neg (by omega)]

theorem capPending_append (l l2 : List SynmemMutationRecord) :
    capPending (capPending l ++ l2) = capPending (l ++ l2) := by
  by_cases h : l.length > 100
  · have hcap : capPending l = l.drop (l.length - 100) := by
      unfold capPending
      rw [if_pos h]
    have hklen : (l.drop (l.length - 100)).length = 100 := by
      rw [List.length_drop]; omega
    rw [hcap]
    by_cases h2 : l2.length = 0
    · have hnil : l2 = [] := List.eq_nil_of_length_eq_zero h2
      subst hnil
      rw [List.append_nil, List.append_nil, capPending_of_le _ (le_of_eq hklen), ← hcap]
    · have hlen1 : (l.drop (l.length - 100) ++ l2).length > 100 := by
        rw [List.length_append, hklen]; omega
      have hlen2 : (l ++ l2).length > 100 := by
        rw [List.length_append]; omega
      unfold capPending
      rw [if_pos hlen1, if_pos hlen2]
      rw [List.drop_append_eq_append_drop, List.drop_append_eq_append_drop,
        List.drop_drop]
      rw [List.length_append, List.length_append, hklen]
      have e1 : l.length - 100 + (100 + l2.length - 100) = l.length + l2.length - 100 := by
        omega
      have e2 : 100 + l2.length - 100 - 100 = l.length + l2.length - 100 - l.length := by
        omega
      rw [e1, e2]
  · rw [capPending_of_le _ (Nat.not_lt.mp h)]

theorem capPending_ne_nil (l : List SynmemMutationRecord) (h : l ≠ []) :
    capPending l ≠ [] := by
  unfold capPending
  by_cases hl : l.length > 100
  · rw [if_pos hl]
    intro hc
    have h2 := congrArg List.length hc
    rw [List.length_drop] at h2
    simp at h2
    omega
  · rw [if_neg hl]
    exact h

theorem runSync_append (es1 es2 : List SyncEvent) :
    ∀ s : RealTimeSyncService,
      runSync s (es1 ++ es2) =
        ((runSync (runSync s es1).1 es2).1,
          (runSync s es1).2 ++ (runSync (runSync s es1).1 es2).2) := by
  induction es1 with
  | nil => intro s; simp [runSync]
  | cons e es ih => intro s; simp [runSync, ih]

theorem validSyncTrace_append (es1 es2 : List SyncEvent) :
    ∀ s : RealTimeSyncService,
      validSyncTrace s (es1 ++ es2) =
        (validSyncTrace s es1 && validSyncTrace (runSync s es1).1 es2) := by
  induction es1 with
  | nil => intro s; simp [validSyncTrace, runSync]
  | cons e es ih => intro s; simp [validSyncTrace, runSync, ih, Bool.and_assoc]

theorem runSync_mutates (w : Nat) :
    ∀ (xs : List (Nat × RawMutation)) (s : RealTimeSyncService),
      s.debounceDelay = w →
      (s.debounceDue = none ∨ s.debounceDue = some (s.now + w)) →
      s.pendingMutations.length ≤ 100 →
      (∀ x ∈ xs, isSignificantMutation x.2 = true) →
      gapsOk w s.now xs = true →
      runSync s (xs.map (fun x => SyncEvent.mutate x.1 [x.2])) =
        ({ s with
            pendingMutations :=
              capPending (s.pendingMutations ++
                xs.map (fun x => convertMutationRecord x.2))
            debounceDue :=
              if xs.isEmpty then s.debounceDue
              else some ((xs.map Prod.fst).getLastD s.now + w)
            now := (xs.map Prod.fst).getLastD s.now },
          []) ∧
      validSyncTrace s (xs.map (fun x => SyncEvent.mutate x.1 [x.2])) = true := by
  intro xs
  induction xs with
  | nil =>
    intro s hdelay hdue hlen hsig hgaps
    constructor
    · simp [runSync, capPending_of_le _ hlen]
    · simp [validSyncTrace]
  | cons x rest ih =>
    intro s hdelay hdue hlen hsig hgaps
    obtain ⟨pm, dd, ddel, nw⟩ := s
    simp only at hdelay hdue hlen hgaps ⊢
    subst hdelay
    simp only [gapsOk, Bool.and_eq_true, decide_eq_true_eq] at hgaps
    obtain ⟨⟨h1, h2⟩, h3⟩ := hgaps
    have hsigx : isSignificantMutation x.2 = true := hsig x (by simp)
    have hsigr : ∀ y ∈ rest, isSignificantMutation y.2 = true :=
      fun y hy => hsig y (by simp [hy])
    have hstep :
        stepSync ⟨pm, dd, ddel, nw⟩ (SyncEvent.mutate x.1 [x.2]) =
        (⟨capPending (pm ++ [convertMutationRecord x.2]), some (x.1 + ddel), ddel, x.1⟩,
          []) := by
      simp [stepSync, SyncEvent.time, RealTimeSyncService.handleMutations, hsigx]
    have ihr := ih
      ⟨capPending (pm ++ [convertMutationRecord x.2]), some (x.1 + ddel), ddel, x.1⟩
      rfl (Or.inr rfl) (capPending_le _) hsigr h3
    simp only at ihr
    constructor
    · simp only [List.map_cons, runSync, hstep]
      rw [ihr.1]
      rw [capPending_append]
      cases rest with
      | nil => simp
      | cons y ys =>
        simp [List.getLastD_cons]
        rw [← List.getLastD_eq_getLast?, ← List.getLastD_eq_getLast?,
          List.getLastD_cons, List.getLastD_cons]
    · simp only [List.map_cons, validSyncTrace, hstep]
      rw [ihr.2]
      rcases hdue with hdd | hdd <;> subst hdd <;>
        simp [syncEventOk, SyncEvent.time, h1, le_of_lt h2]

/-- Claim C9: a burst of surviving (significant) change events whose
inter-arrival gaps are all smaller than the debounce window produces
exactly one `DOM_CHANGED` batch, fired one debounce window after the last
event, containing the converted records in arrival order capped at the
most recent 100 (oldest evicted beyond that), followed by the
`PAGE_SCRAPED` companion — and nothing else.  The schedule consisting of
the burst and the timer firing at its due time is valid: no earlier fire
is possible because every event re-arms the timer into the future. -/
theorem burst_emits_single_batch (w : Nat) (x : Nat × RawMutation)
    (rest : List (Nat × RawMutation))
    (hsig : ∀ y ∈ x :: rest, isSignificantMutation y.2 = true)
    (hgaps : gapsOk w x.1 rest = true) :
    validSyncTrace (RealTimeSyncService.mkNew w)
      (SyncEvent.mutate x.1 [x.2] ::
        (rest.map (fun y => SyncEvent.mutate y.1 [y.2]) ++
          [SyncEvent.fire ((rest.map Prod.fst).getLastD x.1 + w)])) = true ∧
    (runSync (RealTimeSyncService.mkNew w)
      (SyncEvent.mutate x.1 [x.2] ::
        (rest.map (fun y => SyncEvent.mutate y.1 [y.2]) ++
          [SyncEvent.fire ((rest.map Prod.fst).getLastD x.1 + w)]))).2 =
      [SyncEffect.domChanged
          (capPending (convertMutationRecord x.2 ::
            rest.map (fun y => convertMutationRecord y.2)))
          ((rest.map Prod.fst).getLastD x.1 + w),
        SyncEffect.pageScraped] ∧
    (capPending (convertMutationRecord x.2 ::
        rest.map (fun y => convertMutationRecord y.2))).length ≤ 100 := by
  have hsigx : isSignificantMutation x.2 = true := hsig x (by simp)
  have hsigr : ∀ y ∈ rest, isSignificantMutation y.2 = true :=
    fun y hy => hsig y (by simp [hy])
  have hstep :
      stepSync (RealTimeSyncService.mkNew w) (SyncEvent.mutate x.1 [x.2]) =
      (⟨[convertMutationRecord x.2], some (x.1 + w), w, x.1⟩, []) := by
    simp [RealTimeSyncService.mkNew, stepSync, SyncEvent.time,
      RealTimeSyncService.handleMutations, hsigx, capPending]
  have hmut := runSync_mutates w rest
    ⟨[convertMutationRecord x.2], some (x.1 + w), w, x.1⟩ rfl (Or.inr rfl) (by simp)
    hsigr hgaps
  simp only at hmut
  have hdue2 :
      (if rest.isEmpty then some (x.1 + w)
        else some ((rest.map Prod.fst).getLastD x.1 + w)) =
      some ((rest.map Prod.fst).getLastD x.1 + w) := by
    cases rest <;> simp
  have hne := capPending_ne_nil
    (convertMutationRecord x.2 :: rest.map (fun y => convertMutationRecord y.2))
    (by simp)
  have hfire :
      stepSync
        ⟨capPending ([convertMutationRecord x.2] ++
            rest.map (fun y => convertMutationRecord y.2)),
          some ((rest.map Prod.fst).getLastD x.1 + w), w,
          (rest.map Prod.fst).getLastD x.1⟩
        (SyncEvent.fire ((rest.map Prod.fst).getLastD x.1 + w)) =
      (⟨[], none, w, (rest.map Prod.fst).getLastD x.1 + w⟩,
        [SyncEffect.domChanged
            (capPending ([convertMutationRecord x.2] ++
              rest.map (fun y => convertMutationRecord y.2)))
            ((rest.map Prod.fst).getLastD x.1 + w),
          SyncEffect.pageScraped]) := by
    simp [stepSync, SyncEvent.time, RealTimeSyncService.syncToNativeHost,
      List.length_eq_zero, hne]
  refine ⟨?_, ?_, capPending_le _⟩
  · simp only [validSyncTrace, hstep]
    rw [validSyncTrace_append, hmut.1, hmut.2, hdue2]
    simp only [validSyncTrace, hfire]
    simp [syncEventOk, SyncEvent.time, RealTimeSyncService.mkNew]
  · simp only [runSync, hstep]
    rw [runSync_append, hmut.1, hdue2]
    simp only [runSync, hfire]
    simp

/-- Witness for C9: debounceWindowMs = 500 and five attribute-change
events at t = 0, 100, 200, 300, 400 produce a single batch of the five
records, in arrival order, emitted at t = 900. -/
theorem burst_emits_single_batch_witness :
    validSyncTrace (RealTimeSyncService.mkNew 500)
      [SyncEvent.mutate 0 [exampleAttrMutation 0],
        SyncEvent.mutate 100 [exampleAttrMutation 1],
        SyncEvent.mutate 200 [exampleAttrMutation 2],
        SyncEvent.mutate 300 [exampleAttrMutation 3],
        SyncEvent.mutate 400 [exampleAttrMutation 4],
        SyncEvent.fire 900] = true ∧
    (runSync (RealTimeSyncService.mkNew 500)
      [SyncEvent.mutate 0 [exampleAttrMutation 0],
        SyncEvent.mutate 100 [exampleAttrMutation 1],
        SyncEvent.mutate 200 [exampleAttrMutation 2],
        SyncEvent.mutate 300 [exampleAttrMutation 3],
        SyncEvent.mutate 400 [exampleAttrMutation 4],
        SyncEvent.fire 900]).2 =
      [SyncEffect.domChanged
          [convertMutationRecord (exampleAttrMutation 0),
            convertMutationRecord (exampleAttrMutation 1),
            convertMutationRecord (exampleAttrMutation 2),
            convertMutationRecord (exampleAttrMutation 3),
            convertMutationRecord (exampleAttrMutation 4)] 900,
        SyncEffect.pageScraped] :=
  ⟨(burst_emits_single_batch 500 (0, exampleAttrMutation 0)
      [(100, exampleAttrMutation 1), (200, exampleAttrMutation 2),
        (300, exampleAttrMutation 3), (400, exampleAttrMutation 4)]
      (by decide) (by decide)).1,
    (burst_emits_single_batch 500 (0, exampleAttrMutation 0)
      [(100, exampleAttrMutation 1), (200, exampleAttrMutation 2),
        (300, exampleAttrMutation 3), (400, exampleAttrMutation 4)]
      (by decide) (by decide)).2.1⟩
